import Mathlib

/-
Shallow embedding of the Scrutinizer badge services (quality and coverage):
the two service files under src/services/scrutinizer, together with the
shared pieces they import.  JavaScript numbers are modelled as rationals
(ℚ); the asynchronous fetch collaborator is modelled as an explicit
function argument from (vcs, slug) to the validated Report; thrown
NotFound errors are modelled with Except String.
-/

/-- JSON-like values, the raw material the Joi report schema validates. -/
inductive JsonValue where
  | str (s : String)
  | num (q : ℚ)
  | bool (b : Bool)
  | null
  | obj (fields : List (String × JsonValue))

/-- Joi.number().positive(): a strictly positive number. -/
def isPositiveNum : JsonValue → Bool
  | .num q => decide (0 < q)
  | _ => false

/-- Joi.string(): a string value. -/
def isStr : JsonValue → Bool
  | .str _ => true
  | _ => false

/-- The metric_values object of the report schema: the metric key is
optional, but when present its value must be a positive number. -/
def validMetricValues (metric : String) : JsonValue → Bool
  | .obj fields =>
    match fields.lookup metric with
    | none => true
    | some v => isPositiveNum v
  | _ => false

/-- The project object of the report schema: metric_values is required. -/
def validProject (metric : String) : JsonValue → Bool
  | .obj fields =>
    match fields.lookup "metric_values" with
    | some v => validMetricValues metric v
    | none => false
  | _ => false

/-- The _embedded object of the report schema: project is required. -/
def validEmbedded (metric : String) : JsonValue → Bool
  | .obj fields =>
    match fields.lookup "project" with
    | some v => validProject metric v
    | none => false
  | _ => false

/-- The index object of the report schema: _embedded is required. -/
def validIndexSection (metric : String) : JsonValue → Bool
  | .obj fields =>
    match fields.lookup "_embedded" with
    | some v => validEmbedded metric v
    | none => false
  | _ => false

/-- A per-branch application entry: the index key is optional, but when
present it must match the index sub-schema. -/
def validApplication (metric : String) : JsonValue → Bool
  | .obj fields =>
    match fields.lookup "index" with
    | none => true
    | some v => validIndexSection metric v
  | _ => false

/-- applications: a required object whose every value (the Joi pattern
matches every key) must match the application sub-schema. -/
def validApplications (metric : String) : JsonValue → Bool
  | .obj fields => fields.all fun p => validApplication metric p.2
  | _ => false

/-- The full report schema from the service files: default_branch is a
required string, applications is a required pattern object. -/
def schemaValid (metric : String) : JsonValue → Bool
  | .obj fields =>
    (match fields.lookup "default_branch" with
     | some v => isStr v
     | none => false) &&
    (match fields.lookup "applications" with
     | some v => validApplications metric v
     | none => false)
  | _ => false

/-- The fields of an object value, when the value is an object. -/
def asObjFields : JsonValue → Option (List (String × JsonValue))
  | .obj fields => some fields
  | _ => none

/-- The navigation path index._embedded.project.metric_values[metric]
on a raw per-branch application value, each step optional. -/
def appMetricValue (metric : String) (app : JsonValue) : Option JsonValue := do
  let af ← asObjFields app
  let ixv ← af.lookup "index"
  let ixf ← asObjFields ixv
  let ev ← ixf.lookup "_embedded"
  let ef ← asObjFields ev
  let pv ← ef.lookup "project"
  let pf ← asObjFields pv
  let mvv ← pf.lookup "metric_values"
  let mvf ← asObjFields mvv
  mvf.lookup metric

/-- The validated shape of project: a metric_values mapping from metric
keys to numbers. -/
structure Project where
  metric_values : List (String × ℚ)

/-- The validated shape of the _embedded wrapper around project. -/
structure Embedded where
  project : Project

/-- The validated shape of a branch's index section. -/
structure IndexSection where
  _embedded : Embedded

/-- A validated per-branch application entry; the index section is
optional in the schema. -/
structure Application where
  index : Option IndexSection

/-- A validated Report: default_branch plus the applications mapping
from branch name to application entry. -/
structure Report where
  default_branch : String
  applications : List (String × Application)

/-- The result of the Metric Extractor: the resolved branch and the
metric value found for it. -/
structure MetricResult where
  branch : String
  value : ℚ
deriving DecidableEq

/-- The badge output handed to the badge-rendering layer. -/
structure BadgeData where
  message : String
  color : String
deriving DecidableEq

namespace ColorFormatters

/-- Modelled from the spec: colorScale from color-formatters.js (not under
src/).  Built from ascending thresholds and one more color than there are
thresholds; returns the color of the first threshold the value is below,
and the last color for values at or above every threshold. -/
def colorScale (steps : List ℚ) (colors : List String) (value : ℚ) : String :=
  match steps, colors with
  | [], cs => cs.headD ""
  | t :: ts, cs => if value < t then cs.headD "" else colorScale ts cs.tail value

end ColorFormatters

namespace ScrutinizerBase

/-- Modelled from the spec: transformBranch from scrutinizer-base.js (not
under src/).  Resolves the effective branch: the given branch name when it
is non-empty, else the report's default_branch. -/
def transformBranch (json : Report) (branch : Option String) : String :=
  match branch with
  | some b => if b = "" then json.default_branch else b
  | none => json.default_branch

/-- The navigation index._embedded.project.metric_values[metric] on a
validated application entry. -/
def Application.metricValue (app : Application) (metric : String) : Option ℚ :=
  match app.index with
  | none => none
  | some ix => ix._embedded.project.metric_values.lookup metric

/-- Modelled from the spec: transformBranchInfoMetricValue from
scrutinizer-base.js (not under src/).  Resolves the effective branch,
looks the branch up in applications, navigates to the metric value, and
signals not-found (naming the branch) when the branch is absent or any
key on the path is missing; on success returns the resolved branch and
the value. -/
def transformBranchInfoMetricValue (json : Report) (branch : Option String)
    (metric : String) : Except String MetricResult :=
  let b := transformBranch json branch
  match json.applications.lookup b with
  | none => .error ("branch not found: " ++ b)
  | some app =>
    match Application.metricValue app metric with
    | none => .error ("branch not found: " ++ b)
    | some v => .ok { branch := b, value := v }

end ScrutinizerBase

/-- Rounding to the nearest integer, halves towards positive infinity:
the common behaviour of Math.round and toFixed(0) ties in JavaScript. -/
def roundHalfUp (q : ℚ) : ℤ := Rat.floor (q + 1/2)

/-- The decimal string JavaScript prints for the number r/100 (r an
integer of hundredths): integer part, then the fractional digits with
trailing zeros dropped.  This is the template-string formatting of
Math.round(score * 100) / 100 in the quality render. -/
def formatHundredths (r : ℤ) : String :=
  let sign := if r < 0 then "-" else ""
  let a := r.natAbs
  let ip := a / 100
  let fp := a % 100
  if fp = 0 then sign ++ toString ip
  else if fp % 10 = 0 then sign ++ toString ip ++ "." ++ toString (fp / 10)
  else if fp < 10 then sign ++ toString ip ++ ".0" ++ toString fp
  else sign ++ toString ip ++ "." ++ toString fp

namespace ScrutinizerQuality

/-- The quality report schema (metric key scrutinizer.quality). -/
def schema : JsonValue → Bool := schemaValid "scrutinizer.quality"

/-- The quality color scale from the quality service file. -/
def scale : ℚ → String :=
  ColorFormatters.colorScale [4, 5, 7, 9]
    ["red", "orange", "yellow", "green", "brightgreen"]

/-- ScrutinizerQualityBase.render: message is the template-string form of
Math.round(score * 100) / 100, color is the quality scale on the raw
score. -/
def render (score : ℚ) : BadgeData :=
  { message := formatHundredths (roundHalfUp (score * 100))
    color := scale score }

/-- ScrutinizerQualityBase.makeBadge: fetch the report (the fetch
collaborator is the upstream argument), extract scrutinizer.quality for
the branch, and render; extraction errors propagate. -/
def makeBadge (upstream : String → String → Report) (vcs slug : String)
    (branch : Option String) : Except String BadgeData :=
  let json := upstream vcs slug
  match ScrutinizerBase.transformBranchInfoMetricValue json branch
      "scrutinizer.quality" with
  | .error e => .error e
  | .ok r => .ok (render r.value)

/-- ScrutinizerQualityGitLab.handle: vcs is fixed to "gl" and the slug is
assembled as instance/user/repo. -/
def handleGitLab (upstream : String → String → Report)
    (inst user repo : String) (branch : Option String) :
    Except String BadgeData :=
  makeBadge upstream "gl" (inst ++ "/" ++ user ++ "/" ++ repo) branch

end ScrutinizerQuality

namespace ScrutinizerCoverage

/-- The coverage report schema (metric key scrutinizer.test_coverage). -/
def schema : JsonValue → Bool := schemaValid "scrutinizer.test_coverage"

/-- The coverage color scale from the coverage service file. -/
def scale : ℚ → String :=
  ColorFormatters.colorScale [40, 61] ["red", "yellow", "brightgreen"]

/-- ScrutinizerCoverageBase.render: message is coverage.toFixed(0)
followed by a percent sign, color is the coverage scale. -/
def render (coverage : ℚ) : BadgeData :=
  { message := toString (roundHalfUp coverage) ++ "%"
    color := scale coverage }

/-- ScrutinizerCoverageBase.transform: extract scrutinizer.test_coverage
for the branch; a falsy raw value signals not-found with message
"coverage not found", otherwise the fraction is scaled to a
percentage. -/
def transform (json : Report) (branch : Option String) : Except String ℚ :=
  match ScrutinizerBase.transformBranchInfoMetricValue json branch
      "scrutinizer.test_coverage" with
  | .error e => .error e
  | .ok r =>
    if r.value = 0 then .error "coverage not found"
    else .ok (r.value * 100)

/-- ScrutinizerCoverageBase.makeBadge: fetch, transform, render. -/
def makeBadge (upstream : String → String → Report) (vcs slug : String)
    (branch : Option String) : Except String BadgeData :=
  let json := upstream vcs slug
  match transform json branch with
  | .error e => .error e
  | .ok c => .ok (render c)

/-- ScrutinizerCoverageGitLab.handle: vcs is fixed to "gl" and the slug
is assembled as instance/user/repo. -/
def handleGitLab (upstream : String → String → Report)
    (inst user repo : String) (branch : Option String) :
    Except String BadgeData :=
  makeBadge upstream "gl" (inst ++ "/" ++ user ++ "/" ++ repo) branch

end ScrutinizerCoverage

/-- The report of the spec's extractor test: default branch master with a
quality score of 8.5 recorded for master. -/
def exampleReport : Report :=
  { default_branch := "master"
    applications :=
      [("master",
        { index := some { _embedded := { project :=
            { metric_values := [("scrutinizer.quality", 8.5)] } } } })] }

/-- A report whose quality metric reads 0 for master (such a value is
outside what the schema admits, but the extractor and makeBadge accept
the shape). -/
def zeroQualityReport : Report :=
  { default_branch := "master"
    applications :=
      [("master",
        { index := some { _embedded := { project :=
            { metric_values := [("scrutinizer.quality", 0)] } } } })] }

/-- A report whose test-coverage fraction is 0.755 for master. -/
def cov755Report : Report :=
  { default_branch := "master"
    applications :=
      [("master",
        { index := some { _embedded := { project :=
            { metric_values := [("scrutinizer.test_coverage", 755/1000)] } } } })] }

/-- A report whose test-coverage value reads 0 for master. -/
def zeroCovReport : Report :=
  { default_branch := "master"
    applications :=
      [("master",
        { index := some { _embedded := { project :=
            { metric_values := [("scrutinizer.test_coverage", 0)] } } } })] }

/-- A raw report document with a full metric path and a positive quality
value. -/
def posReportJson : JsonValue :=
  .obj [("default_branch", .str "master"),
        ("applications", .obj [("master",
          .obj [("index",
            .obj [("_embedded",
              .obj [("project",
                .obj [("metric_values",
                  .obj [("scrutinizer.quality", .num 9)])])])])])])]

/-- A per-branch entry that lacks the index structure entirely. -/
def noIndexApplication : JsonValue := .obj []

/-- A raw report document whose only branch entry lacks index. -/
def noIndexReportJson : JsonValue :=
  .obj [("default_branch", .str "master"),
        ("applications", .obj [("master", noIndexApplication)])]

/-- A raw report document with an empty applications mapping. -/
def emptyAppsReportJson : JsonValue :=
  .obj [("default_branch", .str "master"), ("applications", .obj [])]

theorem roundHalfUp_eq_floor (q : ℚ) : roundHalfUp q = ⌊q + 1/2⌋ := by
  rw [roundHalfUp, Rat.floor_def', Rat.floor_def]

theorem abs_roundHalfUp_sub_le (q : ℚ) : |((roundHalfUp q : ℚ)) - q| ≤ 1/2 := by
  rw [roundHalfUp_eq_floor]
  have h1 : ((⌊q + 1/2⌋ : ℤ) : ℚ) ≤ q + 1/2 := Int.floor_le _
  have h2 : q + 1/2 - 1 < ((⌊q + 1/2⌋ : ℤ) : ℚ) := Int.sub_one_lt_floor _
  rw [abs_le]
  constructor <;> linarith

/-- C5 counterexample: on the quality scale the claim's cited values at
6.9 and 7 are wrong: the scale yields yellow at 6.9 (not orange) and
green at 7 (not yellow). -/
theorem C5_counterexample :
    ScrutinizerQuality.scale (69/10) ≠ "orange" ∧
    ScrutinizerQuality.scale 7 ≠ "yellow" := by
  have h1 : ScrutinizerQuality.scale (69/10) = "yellow" := by
    norm_num [ScrutinizerQuality.scale, ColorFormatters.colorScale]
  have h2 : ScrutinizerQuality.scale 7 = "green" := by decide
  rw [h1, h2]
  exact ⟨by decide, by decide⟩

/-- C5 (amended): the quality color scale is built from thresholds
[4, 5, 7, 9] and colors [red, orange, yellow, green, brightgreen], and
returns the color of the bucket the value falls in (first bucket below
4, last bucket at or above 9); in particular scale(3.9) = red,
scale(4) = orange, scale(6.9) = yellow, scale(7) = green,
scale(9) = brightgreen and scale(9.5) = brightgreen. -/
theorem C5_quality_scale :
    (∀ v : ℚ, v < 4 → ScrutinizerQuality.scale v = "red") ∧
    (∀ v : ℚ, 4 ≤ v → v < 5 → ScrutinizerQuality.scale v = "orange") ∧
    (∀ v : ℚ, 5 ≤ v → v < 7 → ScrutinizerQuality.scale v = "yellow") ∧
    (∀ v : ℚ, 7 ≤ v → v < 9 → ScrutinizerQuality.scale v = "green") ∧
    (∀ v : ℚ, 9 ≤ v → ScrutinizerQuality.scale v = "brightgreen") ∧
    ScrutinizerQuality.scale (39/10) = "red" ∧
    ScrutinizerQuality.scale 4 = "orange" ∧
    ScrutinizerQuality.scale (69/10) = "yellow" ∧
    ScrutinizerQuality.scale 7 = "green" ∧
    ScrutinizerQuality.scale 9 = "brightgreen" ∧
    ScrutinizerQuality.scale (95/10) = "brightgreen" := by
  refine ⟨?_, ?_, ?_, ?_, ?_, ?_, ?_, ?_, ?_, ?_, ?_⟩
  · intro v h
    rw [ScrutinizerQuality.scale, ColorFormatters.colorScale, if_pos h]
    rfl
  · intro v h1 h2
    rw [ScrutinizerQuality.scale, ColorFormatters.colorScale,
      if_neg (not_lt.mpr h1), ColorFormatters.colorScale, if_pos h2]
    rfl
  · intro v h1 h2
    rw [ScrutinizerQuality.scale, ColorFormatters.colorScale,
      if_neg (not_lt.mpr (by linarith)), ColorFormatters.colorScale,
      if_neg (not_lt.mpr h1), ColorFormatters.colorScale, if_pos h2]
    rfl
  · intro v h1 h2
    rw [ScrutinizerQuality.scale, ColorFormatters.colorScale,
      if_neg (not_lt.mpr (by linarith)), ColorFormatters.colorScale,
      if_neg (not_lt.mpr (by linarith)), ColorFormatters.colorScale,
      if_neg (not_lt.mpr h1), ColorFormatters.colorScale, if_pos h2]
    rfl
  · intro v h1
    rw [ScrutinizerQuality.scale, ColorFormatters.colorScale,
      if_neg (not_lt.mpr (by linarith)), ColorFormatters.colorScale,
      if_neg (not_lt.mpr (by linarith)), ColorFormatters.colorScale,
      if_neg (not_lt.mpr (by linarith)), ColorFormatters.colorScale,
      if_neg (not_lt.mpr h1), ColorFormatters.colorScale]
    rfl
  · norm_num [ScrutinizerQuality.scale, ColorFormatters.colorScale]
  · decide
  · norm_num [ScrutinizerQuality.scale, ColorFormatters.colorScale]
  · decide
  · decide
  · norm_num [ScrutinizerQuality.scale, ColorFormatters.colorScale]

/-- C5 witness: the green bucket of the amended scale applied at 8. -/
theorem C5_witness : ScrutinizerQuality.scale 8 = "green" :=
  C5_quality_scale.2.2.2.1 8 (by decide) (by decide)

/-- C6: the coverage color scale is built from thresholds [40, 61] and
colors [red, yellow, brightgreen], with the bucket rule (first bucket
below 40, last bucket at or above 61); in particular scale(39) = red,
scale(40) = yellow, scale(60) = yellow and scale(61) = brightgreen. -/
theorem C6_coverage_scale :
    (∀ v : ℚ, v < 40 → ScrutinizerCoverage.scale v = "red") ∧
    (∀ v : ℚ, 40 ≤ v → v < 61 → ScrutinizerCoverage.scale v = "yellow") ∧
    (∀ v : ℚ, 61 ≤ v → ScrutinizerCoverage.scale v = "brightgreen") ∧
    ScrutinizerCoverage.scale 39 = "red" ∧
    ScrutinizerCoverage.scale 40 = "yellow" ∧
    ScrutinizerCoverage.scale 60 = "yellow" ∧
    ScrutinizerCoverage.scale 61 = "brightgreen" := by
  refine ⟨?_, ?_, ?_, ?_, ?_, ?_, ?_⟩
  · intro v h
    rw [ScrutinizerCoverage.scale, ColorFormatters.colorScale, if_pos h]
    rfl
  · intro v h1 h2
    rw [ScrutinizerCoverage.scale, ColorFormatters.colorScale,
      if_neg (not_lt.mpr h1), ColorFormatters.colorScale, if_pos h2]
    rfl
  · intro v h1
    rw [ScrutinizerCoverage.scale, ColorFormatters.colorScale,
      if_neg (not_lt.mpr (by linarith)), ColorFormatters.colorScale,
      if_neg (not_lt.mpr h1), ColorFormatters.colorScale]
    rfl
  · decide
  · decide
  · decide
  · decide

/-- C6 witness: the yellow bucket of the coverage scale applied at 50. -/
theorem C6_witness : ScrutinizerCoverage.scale 50 = "yellow" :=
  C6_coverage_scale.2.1 50 (by decide) (by decide)

/-- C3 counterexample: the quality render of score 7.5 carries color
green, not yellow, since 7.5 lies in the bucket at or above threshold
7. -/
theorem C3_counterexample :
    ScrutinizerQuality.render (75/10) ≠ { message := "7.5", color := "yellow" } := by
  have hm : roundHalfUp ((75/10 : ℚ) * 100) = 750 := by
    norm_num [roundHalfUp, Rat.floor]
  have hc : ScrutinizerQuality.scale (75/10) = "green" := by
    norm_num [ScrutinizerQuality.scale, ColorFormatters.colorScale]
  simp only [ScrutinizerQuality.render, hm, hc]
  decide

/-- C3 (amended): for every score, the quality render's message is the
decimal form of the score rounded to two decimal places (trailing zeros
dropped, and the rounded value is within 1/200 of the score) and its
color is the quality scale on the raw score; in particular
render(7.5) = (message "7.5", color green) and
render(8.333) = (message "8.33", color green). -/
theorem C3_quality_render :
    (∀ score : ℚ, ScrutinizerQuality.render score =
      { message := formatHundredths (roundHalfUp (score * 100))
        color := ScrutinizerQuality.scale score }) ∧
    (∀ score : ℚ, |((roundHalfUp (score * 100) : ℚ)) / 100 - score| ≤ 1/200) ∧
    ScrutinizerQuality.render (75/10) = { message := "7.5", color := "green" } ∧
    ScrutinizerQuality.render (8333/1000) = { message := "8.33", color := "green" } := by
  refine ⟨fun score => rfl, ?_, ?_, ?_⟩
  · intro score
    have h := abs_roundHalfUp_sub_le (score * 100)
    rw [abs_le] at h ⊢
    obtain ⟨h1, h2⟩ := h
    constructor <;> linarith
  · have hm : roundHalfUp ((75/10 : ℚ) * 100) = 750 := by
      norm_num [roundHalfUp, Rat.floor]
    have hc : ScrutinizerQuality.scale (75/10) = "green" := by
      norm_num [ScrutinizerQuality.scale, ColorFormatters.colorScale]
    simp only [ScrutinizerQuality.render, hm, hc]
    decide
  · have hm : roundHalfUp ((8333/1000 : ℚ) * 100) = 833 := by
      norm_num [roundHalfUp, Rat.floor]
    have hc : ScrutinizerQuality.scale (8333/1000) = "green" := by
      norm_num [ScrutinizerQuality.scale, ColorFormatters.colorScale]
    simp only [ScrutinizerQuality.render, hm, hc]
    decide

/-- C4: for every coverage value the coverage render's message is the
coverage rounded to the nearest integer (within 1/2) suffixed with a
percent sign and its color is the coverage scale; a raw metric value
0.755 makes transform yield coverage 75.5, which renders as
(message "76%", color brightgreen). -/
theorem C4_coverage_render :
    (∀ c : ℚ, ScrutinizerCoverage.render c =
      { message := toString (roundHalfUp c) ++ "%"
        color := ScrutinizerCoverage.scale c }) ∧
    (∀ c : ℚ, |((roundHalfUp c : ℚ)) - c| ≤ 1/2) ∧
    (∀ (json : Report) (branch : Option String) (r : MetricResult),
      ScrutinizerBase.transformBranchInfoMetricValue json branch
        "scrutinizer.test_coverage" = .ok r →
      r.value = 755/1000 →
      ScrutinizerCoverage.transform json branch = .ok (755/10)) ∧
    ScrutinizerCoverage.render (755/10) = { message := "76%", color := "brightgreen" } := by
  refine ⟨fun c => rfl, abs_roundHalfUp_sub_le, ?_, ?_⟩
  · intro json branch r h hv
    simp only [ScrutinizerCoverage.transform, h, hv]
    rw [if_neg (by norm_num)]
    norm_num
  · have hm : roundHalfUp ((755/10 : ℚ)) = 76 := by
      norm_num [roundHalfUp, Rat.floor]
    have hc : ScrutinizerCoverage.scale (755/10) = "brightgreen" := by
      norm_num [ScrutinizerCoverage.scale, ColorFormatters.colorScale]
    simp only [ScrutinizerCoverage.render, hm, hc]
    decide

/-- C4 witness: the transform conjunct applied to a concrete report
whose coverage fraction for master is 0.755. -/
theorem C4_witness : ScrutinizerCoverage.transform cov755Report none = .ok (755/10) :=
  C4_coverage_render.2.2.1 cov755Report none
    { branch := "master", value := 755/1000 } rfl rfl

/-- C1: the coverage transform first runs the metric extractor on
scrutinizer.test_coverage (extractor errors propagate); when the
extracted raw value is zero (the only falsy rational) it signals
not-found with message "coverage not found", and otherwise it returns
the raw value multiplied by 100. -/
theorem C1_coverage_transform (json : Report) (branch : Option String) :
    (∀ e, ScrutinizerBase.transformBranchInfoMetricValue json branch
        "scrutinizer.test_coverage" = .error e →
      ScrutinizerCoverage.transform json branch = .error e) ∧
    (∀ r, ScrutinizerBase.transformBranchInfoMetricValue json branch
        "scrutinizer.test_coverage" = .ok r →
      r.value = 0 →
      ScrutinizerCoverage.transform json branch = .error "coverage not found") ∧
    (∀ r, ScrutinizerBase.transformBranchInfoMetricValue json branch
        "scrutinizer.test_coverage" = .ok r →
      r.value ≠ 0 →
      ScrutinizerCoverage.transform json branch = .ok (r.value * 100)) := by
  refine ⟨?_, ?_, ?_⟩
  · intro e h
    simp only [ScrutinizerCoverage.transform, h]
  · intro r h hv
    simp only [ScrutinizerCoverage.transform, h]
    rw [if_pos hv]
  · intro r h hv
    simp only [ScrutinizerCoverage.transform, h]
    rw [if_neg hv]

/-- C1 witness: a report whose coverage value reads 0 for master makes
transform signal not-found with message "coverage not found". -/
theorem C1_witness :
    ScrutinizerCoverage.transform zeroCovReport none = .error "coverage not found" :=
  (C1_coverage_transform zeroCovReport none).2.1
    { branch := "master", value := 0 } rfl rfl

/-- C2: the metric extractor resolves the effective branch to the given
name when non-empty and to default_branch otherwise; when the resolved
branch is present in applications and the metric path exists it returns
the resolved branch with the value, and when the branch is absent or the
path is missing it signals not-found; on the spec's example report,
calling with no branch returns branch master with value 8.5. -/
theorem C2_metric_extractor :
    (∀ (json : Report) (b : String), b ≠ "" →
      ScrutinizerBase.transformBranch json (some b) = b) ∧
    (∀ json : Report,
      ScrutinizerBase.transformBranch json none = json.default_branch) ∧
    (∀ json : Report,
      ScrutinizerBase.transformBranch json (some "") = json.default_branch) ∧
    (∀ (json : Report) (branch : Option String) (metric : String)
        (app : Application) (v : ℚ),
      json.applications.lookup (ScrutinizerBase.transformBranch json branch) =
        some app →
      ScrutinizerBase.Application.metricValue app metric = some v →
      ScrutinizerBase.transformBranchInfoMetricValue json branch metric =
        .ok { branch := ScrutinizerBase.transformBranch json branch, value := v }) ∧
    (∀ (json : Report) (branch : Option String) (metric : String),
      json.applications.lookup (ScrutinizerBase.transformBranch json branch) =
        none →
      ∃ e, ScrutinizerBase.transformBranchInfoMetricValue json branch metric =
        .error e) ∧
    (∀ (json : Report) (branch : Option String) (metric : String)
        (app : Application),
      json.applications.lookup (ScrutinizerBase.transformBranch json branch) =
        some app →
      ScrutinizerBase.Application.metricValue app metric = none →
      ∃ e, ScrutinizerBase.transformBranchInfoMetricValue json branch metric =
        .error e) ∧
    ScrutinizerBase.transformBranchInfoMetricValue exampleReport none
      "scrutinizer.quality" = .ok { branch := "master", value := 8.5 } := by
  refine ⟨?_, fun json => rfl, ?_, ?_, ?_, ?_, rfl⟩
  · intro json b hb
    simp only [ScrutinizerBase.transformBranch, if_neg hb]
  · intro json
    rfl
  · intro json branch metric app v h1 h2
    simp only [ScrutinizerBase.transformBranchInfoMetricValue, h1, h2]
  · intro json branch metric h1
    exact ⟨"branch not found: " ++ ScrutinizerBase.transformBranch json branch,
      by simp only [ScrutinizerBase.transformBranchInfoMetricValue, h1]⟩
  · intro json branch metric app h1 h2
    exact ⟨"branch not found: " ++ ScrutinizerBase.transformBranch json branch,
      by simp only [ScrutinizerBase.transformBranchInfoMetricValue, h1, h2]⟩

/-- C2 witness: branch resolution applied at the example report with the
non-empty branch name dev. -/
theorem C2_witness : ScrutinizerBase.transformBranch exampleReport (some "dev") = "dev" :=
  C2_metric_extractor.1 exampleReport "dev" (by decide)

/-- C8: both GitLab handlers delegate to makeBadge with vcs fixed to gl
and the slug assembled as instance/user/repo; on the documented example
parameters the assembled slug is propertywindow/propertywindow/client. -/
theorem C8_gitlab_slug :
    (∀ (upstream : String → String → Report) (inst user repo : String)
        (branch : Option String),
      ScrutinizerQuality.handleGitLab upstream inst user repo branch =
        ScrutinizerQuality.makeBadge upstream "gl"
          (inst ++ "/" ++ user ++ "/" ++ repo) branch) ∧
    (∀ (upstream : String → String → Report) (inst user repo : String)
        (branch : Option String),
      ScrutinizerCoverage.handleGitLab upstream inst user repo branch =
        ScrutinizerCoverage.makeBadge upstream "gl"
          (inst ++ "/" ++ user ++ "/" ++ repo) branch) ∧
    "propertywindow" ++ "/" ++ "propertywindow" ++ "/" ++ "client" =
      "propertywindow/propertywindow/client" :=
  ⟨fun _ _ _ _ _ => rfl, fun _ _ _ _ _ => rfl, rfl⟩

/-- C9: against an unchanged upstream (two extensionally equal fetch
functions), two makeBadge calls with identical vcs, slug and branch
yield identical badge data, for both the quality and coverage
variants. -/
theorem C9_makeBadge_deterministic
    (u1 u2 : String → String → Report)
    (h : ∀ vcs slug, u1 vcs slug = u2 vcs slug)
    (vcs slug : String) (branch : Option String) :
    ScrutinizerQuality.makeBadge u1 vcs slug branch =
      ScrutinizerQuality.makeBadge u2 vcs slug branch ∧
    ScrutinizerCoverage.makeBadge u1 vcs slug branch =
      ScrutinizerCoverage.makeBadge u2 vcs slug branch := by
  constructor <;>
    simp only [ScrutinizerQuality.makeBadge, ScrutinizerCoverage.makeBadge, h]

/-- C9 witness: the determinism instance at the example report served
for the documented GitHub route parameters. -/
theorem C9_witness :
    ScrutinizerQuality.makeBadge (fun _ _ => exampleReport) "g" "filp/whoops" none =
      ScrutinizerQuality.makeBadge (fun _ _ => exampleReport) "g" "filp/whoops" none ∧
    ScrutinizerCoverage.makeBadge (fun _ _ => exampleReport) "g" "filp/whoops" none =
      ScrutinizerCoverage.makeBadge (fun _ _ => exampleReport) "g" "filp/whoops" none :=
  C9_makeBadge_deterministic (fun _ _ => exampleReport) (fun _ _ => exampleReport)
    (fun _ _ => rfl) "g" "filp/whoops" none

/-- C10: the quality makeBadge applies no falsy check to the extracted
score: whenever extraction succeeds it renders the score, and in
particular a score of 0 yields the badge (message "0", color red)
rather than an error. -/
theorem C10_quality_no_falsy_check
    (upstream : String → String → Report) (vcs slug : String)
    (branch : Option String) (r : MetricResult)
    (h : ScrutinizerBase.transformBranchInfoMetricValue (upstream vcs slug)
      branch "scrutinizer.quality" = .ok r) :
    ScrutinizerQuality.makeBadge upstream vcs slug branch =
      .ok (ScrutinizerQuality.render r.value) ∧
    (r.value = 0 →
      ScrutinizerQuality.makeBadge upstream vcs slug branch =
        .ok { message := "0", color := "red" }) := by
  constructor
  · simp only [ScrutinizerQuality.makeBadge, h]
  · intro hv
    have hr : ScrutinizerQuality.render r.value = { message := "0", color := "red" } := by
      have hm : roundHalfUp ((0:ℚ) * 100) = 0 := by
        norm_num [roundHalfUp, Rat.floor]
      have hc : ScrutinizerQuality.scale 0 = "red" := by decide
      rw [hv]
      simp only [ScrutinizerQuality.render, hm, hc]
      decide
    simp only [ScrutinizerQuality.makeBadge, h, hr]

/-- C10 witness: makeBadge on a report whose quality value reads 0 for
master returns the rendered zero badge. -/
theorem C10_witness :
    ScrutinizerQuality.makeBadge (fun _ _ => zeroQualityReport) "g" "filp/whoops" none =
      .ok { message := "0", color := "red" } :=
  (C10_quality_no_falsy_check (fun _ _ => zeroQualityReport) "g" "filp/whoops" none
    { branch := "master", value := 0 } rfl).2 rfl

theorem asObjFields_eq_some (v : JsonValue) (fields : List (String × JsonValue))
    (h : asObjFields v = some fields) : v = JsonValue.obj fields := by
  cases v with
  | obj f =>
    simp only [asObjFields, Option.some.injEq] at h
    rw [h]
  | str s => exact absurd h (by simp [asObjFields])
  | num q => exact absurd h (by simp [asObjFields])
  | bool b => exact absurd h (by simp [asObjFields])
  | null => exact absurd h (by simp [asObjFields])

theorem isPositiveNum_spec (v : JsonValue) (h : isPositiveNum v = true) :
    ∃ q, v = JsonValue.num q ∧ 0 < q := by
  cases v with
  | num q => exact ⟨q, rfl, of_decide_eq_true h⟩
  | str s => exact absurd h (by simp [isPositiveNum])
  | bool b => exact absurd h (by simp [isPositiveNum])
  | null => exact absurd h (by simp [isPositiveNum])
  | obj fields => exact absurd h (by simp [isPositiveNum])

theorem validApplication_pos (metric : String) (app mv : JsonValue)
    (hva : validApplication metric app = true)
    (hmv : appMetricValue metric app = some mv) :
    ∃ q, mv = JsonValue.num q ∧ 0 < q := by
  simp only [appMetricValue, bind, Option.bind_eq_some] at hmv
  obtain ⟨af, haf, ixv, hix, ixf, hixf, ev, hev, ef, hef, pv, hpv, pf, hpf,
    mvv, hmvv, mvf, hmvf, hq⟩ := hmv
  obtain rfl := asObjFields_eq_some _ _ haf
  obtain rfl := asObjFields_eq_some _ _ hixf
  obtain rfl := asObjFields_eq_some _ _ hef
  obtain rfl := asObjFields_eq_some _ _ hpf
  obtain rfl := asObjFields_eq_some _ _ hmvf
  simp only [validApplication, hix] at hva
  simp only [validIndexSection, hev] at hva
  simp only [validEmbedded, hpv] at hva
  simp only [validProject, hmvv] at hva
  simp only [validMetricValues, hq] at hva
  exact isPositiveNum_spec mv hva

theorem schemaValid_spec (metric : String) (j : JsonValue)
    (h : schemaValid metric j = true) :
    ∃ fields, j = JsonValue.obj fields ∧
      (∃ s, fields.lookup "default_branch" = some (JsonValue.str s)) ∧
      (∃ apps, fields.lookup "applications" = some (JsonValue.obj apps) ∧
        ∀ p ∈ apps, validApplication metric p.2 = true) := by
  cases j with
  | obj fields =>
    simp only [schemaValid, Bool.and_eq_true] at h
    obtain ⟨hdb, hap⟩ := h
    refine ⟨fields, rfl, ?_, ?_⟩
    · cases hdbv : fields.lookup "default_branch" with
      | none => rw [hdbv] at hdb; exact absurd hdb (by simp)
      | some v =>
        simp only [hdbv] at hdb
        cases v with
        | str s => exact ⟨s, rfl⟩
        | num q => exact absurd hdb (by simp [isStr])
        | bool b => exact absurd hdb (by simp [isStr])
        | null => exact absurd hdb (by simp [isStr])
        | obj f => exact absurd hdb (by simp [isStr])
    · cases hapv : fields.lookup "applications" with
      | none => rw [hapv] at hap; exact absurd hap (by simp)
      | some v =>
        simp only [hapv] at hap
        cases v with
        | obj apps =>
          simp only [validApplications, List.all_eq_true] at hap
          exact ⟨apps, rfl, hap⟩
        | str s => exact absurd hap (by simp [validApplications])
        | num q => exact absurd hap (by simp [validApplications])
        | bool b => exact absurd hap (by simp [validApplications])
        | null => exact absurd hap (by simp [validApplications])
  | str s => exact absurd h (by simp [schemaValid])
  | num q => exact absurd h (by simp [schemaValid])
  | bool b => exact absurd h (by simp [schemaValid])
  | null => exact absurd h (by simp [schemaValid])

/-- C7: every document passing the report schema is an object with a
string default_branch and an applications object (possibly empty), and
any metric value reachable through a branch entry's metric path is a
strictly positive number; a branch entry may nonetheless lack the index
structure entirely, as the validated no-index example shows. -/
theorem C7_schema_invariants :
    (∀ (metric : String) (j : JsonValue), schemaValid metric j = true →
      ∃ fields, j = JsonValue.obj fields ∧
        (∃ s, fields.lookup "default_branch" = some (JsonValue.str s)) ∧
        (∃ apps, fields.lookup "applications" = some (JsonValue.obj apps) ∧
          ∀ p ∈ apps, ∀ mv, appMetricValue metric p.2 = some mv →
            ∃ q, mv = JsonValue.num q ∧ 0 < q)) ∧
    ScrutinizerQuality.schema noIndexReportJson = true ∧
    appMetricValue "scrutinizer.quality" noIndexApplication = none ∧
    ScrutinizerCoverage.schema emptyAppsReportJson = true := by
  refine ⟨?_, rfl, rfl, rfl⟩
  intro metric j h
  obtain ⟨fields, rfl, hdb, apps, hap, hall⟩ := schemaValid_spec metric j h
  exact ⟨fields, rfl, hdb, apps, hap, fun p hp mv hmv =>
    validApplication_pos metric p.2 mv (hall p hp) hmv⟩

/-- C7 witness: the schema conjunct applied to a concrete report
document with a positive quality value. -/
theorem C7_witness :
    ∃ fields, posReportJson = JsonValue.obj fields ∧
      (∃ s, fields.lookup "default_branch" = some (JsonValue.str s)) ∧
      (∃ apps, fields.lookup "applications" = some (JsonValue.obj apps) ∧
        ∀ p ∈ apps, ∀ mv, appMetricValue "scrutinizer.quality" p.2 = some mv →
          ∃ q, mv = JsonValue.num q ∧ 0 < q) :=
  C7_schema_invariants.1 "scrutinizer.quality" posReportJson (by decide)
